import Mathlib

/-!
Verification development for the goanigiffy repository.

The repository builds an animated GIF from a sorted list of still images,
applying crop, scale, rotate and flip to every frame.  The source contains
two near-identical copies of the program: one factored into the helper
functions CropImage / ScaleImage / RotateImage / FlipImage (goanigiffy.go,
lines 64-223), and one with the same logic inlined into main (lines
257-394), which writes the resolved sentinel crop dimensions back through
the cropwidth / cropheight flag pointers and omits the zero-matching-sources
check.

The embedding below translates both copies.  External collaborators are
modelled as follows:
- a decoded source image is an element of Option Image (imaging.Open either
  yields a decoded image or an error that makes the loop skip the file);
- the per-frame quantization round trip through gif.Encode / gif.Decode is a
  parameter quantize : Image -> Option Image (a failure of either call makes
  the loop skip the file);
- Lanczos resampling of pixel content inside imaging.Resize is a parameter
  resample (its floating-point pixel arithmetic is external to the program;
  only the dimensions of its result, which imaging.Resize fixes itself, are
  relevant to the properties below);
- os.Create is modelled by the flag createOk : Bool.
Machine integers are modelled by Int/Nat (the values involved are far from
the 64-bit range) and the float64 scale factor by an exact rational, exact
at the values exercised here.
-/

namespace GoAniGiffy

/-- An in-memory decoded image: width and height in pixels and a total
pixel-access function (color encoded as a natural number).  Decoded images
and all images produced by the imaging package have their origin at (0,0),
so only the extent is kept. -/
structure Image where
  w : Nat
  h : Nat
  pix : Nat → Nat → Nat

/-- The empty image, as returned by the imaging package for empty crops and
degenerate resizes (the zero value of image.NRGBA). -/
def imgEmpty : Image := ⟨0, 0, fun _ _ => 0⟩

/-- A Go image.Rectangle: min and max corner, max-exclusive. -/
structure Rect where
  minX : Int
  minY : Int
  maxX : Int
  maxY : Int
deriving DecidableEq

/-- Go image.Rect(x0, y0, x1, y1): swaps the coordinates on each axis if
necessary so that the rectangle is well-formed. -/
def goRect (x0 y0 x1 y1 : Int) : Rect :=
  ⟨min x0 x1, min y0 y1, max x0 x1, max y0 y1⟩

/-- Go image.Rectangle.Empty: a rectangle with no points inside it. -/
def Rect.isEmpty (r : Rect) : Bool :=
  r.maxX ≤ r.minX || r.maxY ≤ r.minY

/-- The edge-by-edge clipping step of Go image.Rectangle.Intersect. -/
def Rect.clip (r s : Rect) : Rect :=
  ⟨max r.minX s.minX, max r.minY s.minY, min r.maxX s.maxX, min r.maxY s.maxY⟩

/-- Go image.Rectangle.Intersect: clips each edge to the other rectangle and
returns the zero rectangle when the result contains no points. -/
def Rect.intersect (r s : Rect) : Rect :=
  if (r.clip s).isEmpty then ⟨0, 0, 0, 0⟩ else r.clip s

/-- Width in pixels of a rectangle. -/
def Rect.width (r : Rect) : Nat := (r.maxX - r.minX).toNat

/-- Height in pixels of a rectangle. -/
def Rect.height (r : Rect) : Nat := (r.maxY - r.minY).toNat

/-- The bounds of an image as a Go rectangle (origin at (0,0)). -/
def Image.bounds (img : Image) : Rect := ⟨0, 0, img.w, img.h⟩

/-- imaging.Crop (external dependency github.com/disintegration/imaging):
intersects the requested rectangle with the image bounds and copies that
region into a fresh image; an empty intersection yields the empty image.
The requested rectangle is never reported as an error, however far outside
the bounds it lies. -/
def imagingCrop (img : Image) (r : Rect) : Image :=
  if (r.intersect img.bounds).isEmpty then imgEmpty
  else ⟨(r.intersect img.bounds).width, (r.intersect img.bounds).height,
        fun x y => img.pix (x + (r.intersect img.bounds).minX.toNat)
                           (y + (r.intersect img.bounds).minY.toNat)⟩

/-- Pixel content of a resized image is produced by the external Lanczos
resampler of the imaging package; the development is parametric in it. -/
def Resampler : Type := Image → Nat → Nat → Nat → Nat → Nat

/-- Go conversion int(float64 value): truncation toward zero.  Exact for the
rational values exercised in this development. -/
def goInt (q : ℚ) : Int := Int.tdiv q.num q.den

/-- Floor of a rational, used for the round-half-up in imaging.Resize. -/
def ratFloor (q : ℚ) : Int := Int.fdiv q.num q.den

/-- imaging.Resize (external dependency): negative target dimensions or both
dimensions zero yield the empty image; a single zero dimension is replaced
so as to preserve the aspect ratio (minimum 1); otherwise the result has
exactly the requested dimensions, with resampled pixel content. -/
def imagingResize (resample : Resampler) (img : Image) (width height : Int) : Image :=
  if width < 0 ∨ height < 0 then imgEmpty
  else if width = 0 ∧ height = 0 then imgEmpty
  else
    let dstW : Int := if width = 0 then
        max 1 (ratFloor ((height : ℚ) * (img.w : ℚ) / (img.h : ℚ) + 1/2))
      else width
    let dstH : Int := if height = 0 then
        max 1 (ratFloor ((dstW : ℚ) * (img.h : ℚ) / (img.w : ℚ) + 1/2))
      else height
    ⟨dstW.toNat, dstH.toNat, fun x y => resample img dstW.toNat dstH.toNat x y⟩

/-- imaging.Rotate90 (external dependency): exact lossless rearrangement,
90 degrees counterclockwise; dimensions swap. -/
def imagingRotate90 (img : Image) : Image :=
  ⟨img.h, img.w, fun x y => img.pix (img.w - 1 - y) x⟩

/-- imaging.Rotate180 (external dependency): exact lossless rearrangement. -/
def imagingRotate180 (img : Image) : Image :=
  ⟨img.w, img.h, fun x y => img.pix (img.w - 1 - x) (img.h - 1 - y)⟩

/-- imaging.Rotate270 (external dependency): exact lossless rearrangement,
270 degrees counterclockwise; dimensions swap. -/
def imagingRotate270 (img : Image) : Image :=
  ⟨img.h, img.w, fun x y => img.pix y (img.h - 1 - x)⟩

/-- imaging.FlipH (external dependency): mirrors columns. -/
def imagingFlipH (img : Image) : Image :=
  ⟨img.w, img.h, fun x y => img.pix (img.w - 1 - x) y⟩

/-- imaging.FlipV (external dependency): mirrors rows. -/
def imagingFlipV (img : Image) : Image :=
  ⟨img.w, img.h, fun x y => img.pix x (img.h - 1 - y)⟩

/-- CropImage (goanigiffy.go lines 64-79).  Skips the crop entirely for the
all-default quadruple (0, 0, -1, -1); otherwise resolves the sentinel -1
width/height to the image's current extent and crops to
image.Rect(cropleft, croptop, cropleft+cropwidth-1, croptop+cropheight-1).
The verbose logging has no effect on the result and is omitted. -/
def CropImage (cropleft croptop cropwidth cropheight : Int) (img : Image) : Image :=
  if ¬(cropwidth = -1 ∧ cropheight = -1 ∧ cropleft = 0 ∧ croptop = 0) then
    let cw := if cropwidth = -1 then (img.w : Int) else cropwidth
    let ch := if cropheight = -1 then (img.h : Int) else cropheight
    imagingCrop img (goRect cropleft croptop (cropleft + cw - 1) (croptop + ch - 1))
  else img

/-- ScaleImage (goanigiffy.go lines 81-94).  No-op when scale equals 1.0;
otherwise resizes to (int(float64(Dx)*scale), int(float64(Dy)*scale)) with
the Lanczos filter. -/
def ScaleImage (resample : Resampler) (scale : ℚ) (img : Image) : Image :=
  if scale ≠ 1 then
    imagingResize resample img (goInt ((img.w : ℚ) * scale)) (goInt ((img.h : ℚ) * scale))
  else img

/-- RotateImage (goanigiffy.go lines 96-110): switch on the rotate value;
any value other than 90, 180, 270 leaves the image unchanged. -/
def RotateImage (rotate : Int) (img : Image) : Image :=
  if rotate = 90 then imagingRotate90 img
  else if rotate = 180 then imagingRotate180 img
  else if rotate = 270 then imagingRotate270 img
  else img

/-- FlipImage (goanigiffy.go lines 113-126): switch on the flip string; any
value other than "horizontal" or "vertical" leaves the image unchanged. -/
def FlipImage (flip : String) (img : Image) : Image :=
  if flip = "horizontal" then imagingFlipH img
  else if flip = "vertical" then imagingFlipV img
  else img

/-- The configuration record built from the command-line flags (goanigiffy.go
lines 132-142), with the documented defaults.  The src/dest/verbose flags
only name external files or control logging and are not part of the frame
pipeline state. -/
structure Config where
  cropleft : Int := 0
  croptop : Int := 0
  cropwidth : Int := -1
  cropheight : Int := -1
  delay : Int := 3
  scale : ℚ := 1
  rotate : Int := 0
  flip : String := "none"

/-- The loop body of the factored main (goanigiffy.go lines 186-189): the
four geometric operations applied by successive reassignment of img. -/
def transformImage (resample : Resampler) (cfg : Config) (img0 : Image) : Image :=
  let img1 := CropImage cfg.cropleft cfg.croptop cfg.cropwidth cfg.cropheight img0
  let img2 := ScaleImage resample cfg.scale img1
  let img3 := RotateImage cfg.rotate img2
  FlipImage cfg.flip img3

/-- Outcome of one source in the factored main's loop: a decode failure or a
quantization (gif round-trip) failure yields none and the source is skipped;
otherwise the transformed, quantized frame. -/
def frameResult (resample : Resampler) (quantize : Image → Option Image)
    (cfg : Config) (src : Option Image) : Option Image :=
  src.bind fun img => quantize (transformImage resample cfg img)

/-- The per-source loop of the factored main (goanigiffy.go lines 175-203):
decode failures and gif round-trip failures hit continue; surviving frames
are appended in order. -/
def processLoop (resample : Resampler) (quantize : Image → Option Image)
    (cfg : Config) : List (Option Image) → List Image
  | [] => []
  | none :: rest => processLoop resample quantize cfg rest
  | some img :: rest =>
    match quantize (transformImage resample cfg img) with
    | none => processLoop resample quantize cfg rest
    | some q => q :: processLoop resample quantize cfg rest

/-- Number of sources of a run that fail (decode, or quantization of the
transformed frame). -/
def failCount (resample : Resampler) (quantize : Image → Option Image)
    (cfg : Config) (sources : List (Option Image)) : Nat :=
  (sources.filter fun s => (frameResult resample quantize cfg s).isNone).length

/-- The in-memory animation handed to gif.EncodeAll: the gif.GIF struct with
its Image, Delay and LoopCount fields. -/
structure GIF where
  image : List Image
  delay : List Int
  loopCount : Int

/-- gif.EncodeAll of the Go standard library (external): fails when the
frame list is empty, when the image and delay lists have different lengths,
or when a frame dimension does not fit the GIF wire format (>= 1<<16). -/
def encodeAllOk (g : GIF) : Bool :=
  !g.image.isEmpty && (g.image.length == g.delay.length) &&
    g.image.all fun f => decide (f.w < 65536) && decide (f.h < 65536)

/-- The animation assembled by the factored main (goanigiffy.go lines
209-219): the surviving frames, a parallel delay list every entry of which
is the -delay flag value, and the literal loop count 0. -/
def mkAnimation (resample : Resampler) (quantize : Image → Option Image)
    (cfg : Config) (sources : List (Option Image)) : GIF :=
  ⟨processLoop resample quantize cfg sources,
   List.replicate (processLoop resample quantize cfg sources).length cfg.delay,
   0⟩

/-- Observable outcome of a run of main: process exit status, whether the
destination file was created (and hence remains on disk), the animation
handed to gif.EncodeAll if execution reached it, and whether that final
encode succeeded. -/
structure RunResult where
  exitCode : Nat
  destCreated : Bool
  animation : Option GIF
  encodeOk : Bool

/-- The factored main (goanigiffy.go lines 128-223).  Invalid rotate/flip
flag values exit(1) before anything is decoded; an empty glob match is
log.Fatalf (exit 1); os.Create failure is log.Fatalf with no file left;
after a successful create the file exists and a gif.EncodeAll error is only
logged, leaving exit status 0.  sources is the sorted glob result with the
external decode applied to each path. -/
def runV1 (resample : Resampler) (quantize : Image → Option Image)
    (cfg : Config) (sources : List (Option Image)) (createOk : Bool) : RunResult :=
  if ¬(cfg.rotate = 0 ∨ cfg.rotate = 90 ∨ cfg.rotate = 180 ∨ cfg.rotate = 270) then
    ⟨1, false, none, false⟩
  else if ¬(cfg.flip = "none" ∨ cfg.flip = "horizontal" ∨ cfg.flip = "vertical") then
    ⟨1, false, none, false⟩
  else if sources.length = 0 then ⟨1, false, none, false⟩
  else if createOk = false then ⟨1, false, none, false⟩
  else ⟨0, true, some (mkAnimation resample quantize cfg sources),
        encodeAllOk (mkAnimation resample quantize cfg sources)⟩

/-- The inlined crop of the second main (goanigiffy.go lines 311-324): same
guard and resolution as CropImage, except that the resolved sentinel
dimensions are written back through the cropwidth/cropheight flag pointers
and therefore persist into later iterations. -/
def cropStepV2 (cropleft croptop : Int) (cw ch : Int) (img : Image) :
    Image × Int × Int :=
  if ¬(cw = -1 ∧ ch = -1 ∧ cropleft = 0 ∧ croptop = 0) then
    let cw' := if cw = -1 then (img.w : Int) else cw
    let ch' := if ch = -1 then (img.h : Int) else ch
    (imagingCrop img (goRect cropleft croptop (cropleft + cw' - 1) (croptop + ch' - 1)),
     cw', ch')
  else (img, cw, ch)

/-- The per-source loop of the second, inlined main (goanigiffy.go lines
300-374), threading the mutable cropwidth/cropheight flag cells.  The
inlined scale, rotate and flip blocks are textually the bodies of
ScaleImage, RotateImage and FlipImage and are reused here. -/
def processLoopV2 (resample : Resampler) (quantize : Image → Option Image)
    (cfg : Config) : Int → Int → List (Option Image) → List Image × Int × Int
  | cw, ch, [] => ([], cw, ch)
  | cw, ch, none :: rest => processLoopV2 resample quantize cfg cw ch rest
  | cw, ch, some img :: rest =>
    let step := cropStepV2 cfg.cropleft cfg.croptop cw ch img
    let img4 := FlipImage cfg.flip (RotateImage cfg.rotate
      (ScaleImage resample cfg.scale step.1))
    match quantize img4 with
    | none => processLoopV2 resample quantize cfg step.2.1 step.2.2 rest
    | some q =>
      let r := processLoopV2 resample quantize cfg step.2.1 step.2.2 rest
      (q :: r.1, r.2.1, r.2.2)

/-- The animation assembled by the inlined main (goanigiffy.go lines
380-390), starting from the flag values of the configuration. -/
def mkAnimationV2 (resample : Resampler) (quantize : Image → Option Image)
    (cfg : Config) (sources : List (Option Image)) : GIF :=
  ⟨(processLoopV2 resample quantize cfg cfg.cropwidth cfg.cropheight sources).1,
   List.replicate
     (processLoopV2 resample quantize cfg cfg.cropwidth cfg.cropheight sources).1.length
     cfg.delay,
   0⟩

/-- The inlined main (goanigiffy.go lines 257-394).  Identical to runV1
except that the zero-matching-sources check is absent and the loop threads
the mutated cropwidth/cropheight flag cells. -/
def runV2 (resample : Resampler) (quantize : Image → Option Image)
    (cfg : Config) (sources : List (Option Image)) (createOk : Bool) : RunResult :=
  if ¬(cfg.rotate = 0 ∨ cfg.rotate = 90 ∨ cfg.rotate = 180 ∨ cfg.rotate = 270) then
    ⟨1, false, none, false⟩
  else if ¬(cfg.flip = "none" ∨ cfg.flip = "horizontal" ∨ cfg.flip = "vertical") then
    ⟨1, false, none, false⟩
  else if createOk = false then ⟨1, false, none, false⟩
  else ⟨0, true, some (mkAnimationV2 resample quantize cfg sources),
        encodeAllOk (mkAnimationV2 resample quantize cfg sources)⟩

/-- A trivial concrete resampler, used to instantiate closed statements. -/
def resample0 : Resampler := fun _ _ _ _ _ => 0

/-- A concrete quantizer that succeeds on every frame, used to instantiate
closed statements (the real gif round trip preserves dimensions). -/
def quantId : Image → Option Image := fun img => some img

/-- A concrete 10 by 10 test image with distinct pixel values. -/
def img10 : Image := ⟨10, 10, fun x y => x + 10 * y⟩

/-- A concrete 20 by 20 test image. -/
def img20 : Image := ⟨20, 20, fun x y => x + 20 * y⟩

/-- A concrete 100 by 100 test image. -/
def img100 : Image := ⟨100, 100, fun _ _ => 0⟩

/-- A concrete 1 by 1 test image. -/
def img1 : Image := ⟨1, 1, fun _ _ => 7⟩

/-- The default configuration: every flag at its documented default. -/
def cfgDefault : Config := {}

/-- A configuration whose crop rectangle (5,5,20,20) lies partly outside a
10 by 10 source image. -/
def cfgOob : Config := { cropleft := 5, croptop := 5, cropwidth := 20, cropheight := 20 }

/-- A configuration with an invalid rotate flag value. -/
def cfgBadRot : Config := { rotate := 45 }

/-- A configuration with a specified crop (cropleft 1) that leaves the
width/height at their sentinel -1 defaults. -/
def cfgC7 : Config := { cropleft := 1 }

/-- A configuration with a specified crop and explicit, non-sentinel
dimensions. -/
def cfgNoSentinel : Config := { cropleft := 1, cropwidth := 5, cropheight := 5 }

/- Helper lemmas -/

theorem goInt_natCast (n : ℕ) : goInt ((n : ℚ)) = (n : Int) := by
  simp [goInt, Rat.num_natCast, Rat.den_natCast, Int.tdiv_one]

theorem intersect_isEmpty_eq_zero (r s : Rect)
    (h : (r.intersect s).isEmpty = true) : r.intersect s = ⟨0, 0, 0, 0⟩ := by
  unfold Rect.intersect at h ⊢
  by_cases hz : (r.clip s).isEmpty = true
  · rw [if_pos hz]
  · rw [if_neg hz] at h ⊢
    exact absurd h hz

theorem imagingCrop_dims (img : Image) (r : Rect) :
    (imagingCrop img r).w = (r.intersect img.bounds).width ∧
    (imagingCrop img r).h = (r.intersect img.bounds).height := by
  unfold imagingCrop
  by_cases hz : (r.intersect img.bounds).isEmpty = true
  · rw [if_pos hz, intersect_isEmpty_eq_zero _ _ hz]
    exact ⟨rfl, rfl⟩
  · rw [if_neg hz]
    exact ⟨rfl, rfl⟩

theorem CropImage_dims (cl ct cw ch : Int) (img : Image)
    (hnd : ¬(cw = -1 ∧ ch = -1 ∧ cl = 0 ∧ ct = 0)) :
    (CropImage cl ct cw ch img).w =
      ((goRect cl ct (cl + (if cw = -1 then (img.w : Int) else cw) - 1)
               (ct + (if ch = -1 then (img.h : Int) else ch) - 1)).intersect
        img.bounds).width ∧
    (CropImage cl ct cw ch img).h =
      ((goRect cl ct (cl + (if cw = -1 then (img.w : Int) else cw) - 1)
               (ct + (if ch = -1 then (img.h : Int) else ch) - 1)).intersect
        img.bounds).height := by
  unfold CropImage
  rw [if_pos hnd]
  exact imagingCrop_dims img _

theorem imagingResize_pos (resample : Resampler) (img : Image) (width height : Int)
    (hw : 0 < width) (hh : 0 < height) :
    imagingResize resample img width height =
      ⟨width.toNat, height.toNat, fun x y => resample img width.toNat height.toNat x y⟩ := by
  unfold imagingResize
  rw [if_neg (by omega : ¬(width < 0 ∨ height < 0)),
      if_neg (by omega : ¬(width = 0 ∧ height = 0))]
  simp only [if_neg (by omega : ¬width = 0), if_neg (by omega : ¬height = 0)]

theorem ScaleImage_two_eq (resample : Resampler) (img : Image)
    (hw : 0 < img.w) (hh : 0 < img.h) :
    ScaleImage resample 2 img =
      ⟨2 * img.w, 2 * img.h, fun x y => resample img (2 * img.w) (2 * img.h) x y⟩ := by
  unfold ScaleImage
  rw [if_pos (by norm_num : (2:ℚ) ≠ 1)]
  have hc1 : ((img.w : ℚ)) * 2 = ((2 * img.w : ℕ) : ℚ) := by push_cast; ring
  have hc2 : ((img.h : ℚ)) * 2 = ((2 * img.h : ℕ) : ℚ) := by push_cast; ring
  rw [hc1, hc2, goInt_natCast, goInt_natCast,
    imagingResize_pos resample img _ _ (by omega) (by omega)]
  have ht1 : ((2:ℤ) * (img.w:ℤ)).toNat = 2 * img.w := by omega
  have ht2 : ((2:ℤ) * (img.h:ℤ)).toNat = 2 * img.h := by omega
  simp [ht1, ht2]

theorem processLoop_eq_filterMap (resample : Resampler)
    (quantize : Image → Option Image) (cfg : Config)
    (sources : List (Option Image)) :
    processLoop resample quantize cfg sources =
      sources.filterMap (frameResult resample quantize cfg) := by
  induction sources with
  | nil => rfl
  | cons s rest ih =>
    cases s with
    | none => simp [processLoop, frameResult, ih]
    | some img =>
      cases hq : quantize (transformImage resample cfg img) <;>
        simp [processLoop, frameResult, hq, ih]

theorem filterMap_length_add_none_length {α β : Type} (f : α → Option β)
    (l : List α) :
    (l.filterMap f).length + (l.filter fun a => (f a).isNone).length = l.length := by
  induction l with
  | nil => rfl
  | cons a l ih =>
    cases hf : f a <;>
      simp [List.filterMap_cons, List.filter_cons, hf] <;> omega

theorem cropStepV2_no_sentinel (cl ct cw ch : Int) (img : Image)
    (hw : cw ≠ -1) (hh : ch ≠ -1) :
    cropStepV2 cl ct cw ch img = (CropImage cl ct cw ch img, cw, ch) := by
  unfold cropStepV2 CropImage
  rw [if_pos (show ¬(cw = -1 ∧ ch = -1 ∧ cl = 0 ∧ ct = 0) from fun hc => hw hc.1),
      if_pos (show ¬(cw = -1 ∧ ch = -1 ∧ cl = 0 ∧ ct = 0) from fun hc => hw hc.1)]
  simp only [if_neg hw, if_neg hh]

theorem processLoopV2_no_sentinel (resample : Resampler)
    (quantize : Image → Option Image) (cfg : Config)
    (hw : cfg.cropwidth ≠ -1) (hh : cfg.cropheight ≠ -1)
    (sources : List (Option Image)) :
    processLoopV2 resample quantize cfg cfg.cropwidth cfg.cropheight sources =
      (processLoop resample quantize cfg sources, cfg.cropwidth, cfg.cropheight) := by
  induction sources with
  | nil => rfl
  | cons s rest ih =>
    cases s with
    | none => simp [processLoopV2, processLoop, ih]
    | some img =>
      have hstep := cropStepV2_no_sentinel cfg.cropleft cfg.croptop
        cfg.cropwidth cfg.cropheight img hw hh
      cases hq : quantize (FlipImage cfg.flip (RotateImage cfg.rotate
          (ScaleImage resample cfg.scale (CropImage cfg.cropleft cfg.croptop
            cfg.cropwidth cfg.cropheight img)))) <;>
        simp [processLoopV2, processLoop, transformImage, hstep, hq, ih]

/- Claim theorems -/

/-- C9: the documented no-op parameter values are identities: Crop with
(left 0, top 0, width -1, height -1) returns an image identical to its
input (the guard skips the crop entirely), and Scale with factor exactly
1.0 returns an image identical to its input. -/
theorem noop_crop_scale_identity (resample : Resampler) (img : Image) :
    CropImage 0 0 (-1) (-1) img = img ∧ ScaleImage resample 1 img = img := by
  constructor
  · unfold CropImage
    rw [if_neg (not_not_intro ⟨rfl, rfl, rfl, rfl⟩)]
  · unfold ScaleImage
    rw [if_neg (not_not_intro rfl)]

/-- C10: for every configuration and every input set, in both copies of the
program, any animation handed to gif.EncodeAll carries the literal loop
count 0 (loop forever); no flag or code path can produce another value. -/
theorem animation_loopcount_always_zero (resample : Resampler)
    (quantize : Image → Option Image) (cfg : Config)
    (sources : List (Option Image)) (createOk : Bool) :
    ((runV1 resample quantize cfg sources createOk).animation.all
        fun g => g.loopCount == 0) = true ∧
    ((runV2 resample quantize cfg sources createOk).animation.all
        fun g => g.loopCount == 0) = true := by
  constructor
  · unfold runV1
    repeat' split
    all_goals rfl
  · unfold runV2
    repeat' split
    all_goals rfl

/-- C2: for every valid configuration and every sorted source list, the
factored run never aborts on per-frame failures (exit 0), and the animation
it assembles contains exactly the surviving frames, in the original
relative order (the failing sources are skipped), with a parallel delay
list of the same length all of whose entries are the configured delay. -/
theorem run_pipeline_frames (resample : Resampler)
    (quantize : Image → Option Image) (cfg : Config)
    (sources : List (Option Image))
    (hrot : cfg.rotate = 0 ∨ cfg.rotate = 90 ∨ cfg.rotate = 180 ∨ cfg.rotate = 270)
    (hflip : cfg.flip = "none" ∨ cfg.flip = "horizontal" ∨ cfg.flip = "vertical")
    (hne : sources ≠ []) :
    ∃ g : GIF,
      (runV1 resample quantize cfg sources true).animation = some g ∧
      (runV1 resample quantize cfg sources true).exitCode = 0 ∧
      g.image = sources.filterMap (frameResult resample quantize cfg) ∧
      g.image.length + failCount resample quantize cfg sources = sources.length ∧
      g.delay.length = g.image.length ∧
      ∀ d ∈ g.delay, d = cfg.delay := by
  have h1 := not_not_intro hrot
  have h2 := not_not_intro hflip
  have h3 : ¬(sources.length = 0) := by
    simpa [List.length_eq_zero] using hne
  refine ⟨mkAnimation resample quantize cfg sources, ?_, ?_, ?_, ?_, ?_, ?_⟩
  · unfold runV1
    rw [if_neg h1, if_neg h2, if_neg h3, if_neg (by decide)]
  · unfold runV1
    rw [if_neg h1, if_neg h2, if_neg h3, if_neg (by decide)]
  · exact processLoop_eq_filterMap resample quantize cfg sources
  · show (processLoop resample quantize cfg sources).length + _ = _
    rw [processLoop_eq_filterMap resample quantize cfg sources]
    exact filterMap_length_add_none_length _ sources
  · simp [mkAnimation]
  · exact fun d hd => List.eq_of_mem_replicate hd

/-- Witness for run_pipeline_frames: a concrete run with one decodable and
one failing source. -/
theorem run_pipeline_frames_witness :
    ∃ g : GIF,
      (runV1 resample0 quantId cfgDefault [some img10, none] true).animation = some g ∧
      (runV1 resample0 quantId cfgDefault [some img10, none] true).exitCode = 0 ∧
      g.image = [some img10, none].filterMap (frameResult resample0 quantId cfgDefault) ∧
      g.image.length + failCount resample0 quantId cfgDefault [some img10, none] =
        ([some img10, none] : List (Option Image)).length ∧
      g.delay.length = g.image.length ∧
      ∀ d ∈ g.delay, d = cfgDefault.delay :=
  run_pipeline_frames resample0 quantId cfgDefault [some img10, none]
    (Or.inl rfl) (Or.inl rfl) (List.cons_ne_nil _ _)

/-- C5: the four geometric operations are applied in the exact fixed order
Crop, Scale, Rotate, Flip, and the order matters: on a 100 by 100 image,
cropping (10,10,50,50) and then scaling by 2 yields a different image (98
by 98) than scaling by 2 and then cropping the same nominal rectangle (49
by 49). -/
theorem transform_order_and_divergence :
    (∀ (resample : Resampler) (cfg : Config) (img : Image),
        transformImage resample cfg img =
          FlipImage cfg.flip (RotateImage cfg.rotate (ScaleImage resample cfg.scale
            (CropImage cfg.cropleft cfg.croptop cfg.cropwidth cfg.cropheight img)))) ∧
    (∀ resample : Resampler,
        ScaleImage resample 2 (CropImage 10 10 50 50 img100) ≠
          CropImage 10 10 50 50 (ScaleImage resample 2 img100)) := by
  refine ⟨fun _ _ _ => rfl, fun resample h => ?_⟩
  have hcrop : CropImage 10 10 50 50 img100 =
      ⟨49, 49, fun x y => img100.pix (x + 10) (y + 10)⟩ := rfl
  have hL : (ScaleImage resample 2 (CropImage 10 10 50 50 img100)).w = 98 := by
    rw [hcrop, ScaleImage_two_eq resample _ (by norm_num) (by norm_num)]
    rfl
  have hs : ScaleImage resample 2 img100 =
      ⟨200, 200, fun x y => resample img100 200 200 x y⟩ := by
    rw [ScaleImage_two_eq resample img100 (by norm_num [img100]) (by norm_num [img100])]
    rfl
  have hR : (CropImage 10 10 50 50 (ScaleImage resample 2 img100)).w = 49 := by
    rw [hs]
    rfl
  rw [h] at hL
  rw [hR] at hL
  exact absurd hL (by decide)

/-- C3 (evaluation at the failing input): CropImage (0,0,5,5) of a 10 by 10
image yields a 4 by 4 image whose origin pixel is the source origin pixel,
not the 5 by 5 image the claim and the -cropwidth flag documentation
describe, because image.Rect's max corner is exclusive while the code
passes cropleft+cropwidth-1 as if it were inclusive. -/
theorem crop_off_by_one_eval :
    (CropImage 0 0 5 5 img10).w = 4 ∧ (CropImage 0 0 5 5 img10).h = 4 ∧
    (CropImage 0 0 5 5 img10).pix 0 0 = img10.pix 0 0 := by decide

/-- C4 counterexample: a crop rectangle reaching outside the 10 by 10
source (left 5, top 5, width 20, height 20) is not reported as an error:
the frame is processed successfully and the rectangle is silently clamped
to the image bounds, yielding a 5 by 5 frame. -/
theorem crop_out_of_bounds_not_error :
    (frameResult resample0 quantId cfgOob (some img10)).map Image.w = some 5 ∧
    (frameResult resample0 quantId cfgOob (some img10)).map Image.h = some 5 := by
  decide

/-- C4 (amended): the geometry stage never fails: the crop result's
dimensions are always those of the intersection of the requested rectangle
with the image bounds (silent clamping, possibly empty), and a scale factor
that drives both computed target dimensions to 0 yields the empty image,
not an error. -/
theorem geometry_total_and_clamping :
    (∀ (cl ct cw ch : Int) (img : Image),
        ¬(cw = -1 ∧ ch = -1 ∧ cl = 0 ∧ ct = 0) →
        (CropImage cl ct cw ch img).w =
          ((goRect cl ct (cl + (if cw = -1 then (img.w : Int) else cw) - 1)
                   (ct + (if ch = -1 then (img.h : Int) else ch) - 1)).intersect
            img.bounds).width ∧
        (CropImage cl ct cw ch img).h =
          ((goRect cl ct (cl + (if cw = -1 then (img.w : Int) else cw) - 1)
                   (ct + (if ch = -1 then (img.h : Int) else ch) - 1)).intersect
            img.bounds).height) ∧
    (∀ (resample : Resampler) (s : ℚ) (img : Image),
        s ≠ 1 → goInt ((img.w : ℚ) * s) = 0 → goInt ((img.h : ℚ) * s) = 0 →
        ScaleImage resample s img = imgEmpty) := by
  constructor
  · intro cl ct cw ch img hnd
    exact CropImage_dims cl ct cw ch img hnd
  · intro resample s img hs h0w h0h
    unfold ScaleImage
    rw [if_pos hs, h0w, h0h]
    rfl

/-- Witness for geometry_total_and_clamping: the clamped out-of-bounds crop
of a 10 by 10 image and a degenerate scale of a 1 by 1 image. -/
theorem geometry_total_and_clamping_witness :
    (CropImage 5 5 20 20 img10).w =
      ((goRect 5 5 (5 + (if (20:ℤ) = -1 then (img10.w : Int) else 20) - 1)
               (5 + (if (20:ℤ) = -1 then (img10.h : Int) else 20) - 1)).intersect
        img10.bounds).width ∧
    ScaleImage resample0 (1/2) img1 = imgEmpty :=
  ⟨(geometry_total_and_clamping.1 5 5 20 20 img10 (by decide)).1,
   geometry_total_and_clamping.2 resample0 (1/2) img1 (by norm_num)
     (by norm_num [goInt, img1]; decide) (by norm_num [goInt, img1]; decide)⟩

/-- C1 counterexample: a run in which every source fails to decode reaches
final assembly with an empty frame list; gif.EncodeAll fails but the error
is only logged, so the process exits with status 0 and the destination
file, created and truncated by os.Create before encoding, remains on
disk. -/
theorem all_sources_failing_exit_zero_file_created :
    (runV1 resample0 quantId cfgDefault [none, none] true).exitCode = 0 ∧
    (runV1 resample0 quantId cfgDefault [none, none] true).destCreated = true ∧
    (runV1 resample0 quantId cfgDefault [none, none] true).encodeOk = false := by
  decide

/-- C1 (amended): after a successful os.Create the run always exits 0 and
the destination file stays committed, even when serialization fails (in
particular when the frame list is empty); only an os.Create failure
terminates the run with a non-zero status and no destination file. -/
theorem assembly_failure_behavior (resample : Resampler)
    (quantize : Image → Option Image) (cfg : Config)
    (sources : List (Option Image))
    (hrot : cfg.rotate = 0 ∨ cfg.rotate = 90 ∨ cfg.rotate = 180 ∨ cfg.rotate = 270)
    (hflip : cfg.flip = "none" ∨ cfg.flip = "horizontal" ∨ cfg.flip = "vertical")
    (hne : sources ≠ []) :
    ((runV1 resample quantize cfg sources true).exitCode = 0 ∧
     (runV1 resample quantize cfg sources true).destCreated = true) ∧
    ((runV1 resample quantize cfg sources false).exitCode = 1 ∧
     (runV1 resample quantize cfg sources false).destCreated = false ∧
     (runV1 resample quantize cfg sources false).animation = none) ∧
    (processLoop resample quantize cfg sources = [] →
      (runV1 resample quantize cfg sources true).encodeOk = false) := by
  have h1 := not_not_intro hrot
  have h2 := not_not_intro hflip
  have h3 : ¬(sources.length = 0) := by
    simpa [List.length_eq_zero] using hne
  refine ⟨⟨?_, ?_⟩, ⟨?_, ?_, ?_⟩, ?_⟩
  · unfold runV1
    rw [if_neg h1, if_neg h2, if_neg h3, if_neg (by decide)]
  · unfold runV1
    rw [if_neg h1, if_neg h2, if_neg h3, if_neg (by decide)]
  · unfold runV1
    rw [if_neg h1, if_neg h2, if_neg h3, if_pos rfl]
  · unfold runV1
    rw [if_neg h1, if_neg h2, if_neg h3, if_pos rfl]
  · unfold runV1
    rw [if_neg h1, if_neg h2, if_neg h3, if_pos rfl]
  · intro hempty
    unfold runV1
    rw [if_neg h1, if_neg h2, if_neg h3, if_neg (by decide)]
    show encodeAllOk (mkAnimation resample quantize cfg sources) = false
    unfold encodeAllOk mkAnimation
    rw [hempty]
    rfl

/-- Witness for assembly_failure_behavior: the default configuration with a
single failing source. -/
theorem assembly_failure_behavior_witness :
    ((runV1 resample0 quantId cfgDefault [none] true).exitCode = 0 ∧
     (runV1 resample0 quantId cfgDefault [none] true).destCreated = true) ∧
    ((runV1 resample0 quantId cfgDefault [none] false).exitCode = 1 ∧
     (runV1 resample0 quantId cfgDefault [none] false).destCreated = false ∧
     (runV1 resample0 quantId cfgDefault [none] false).animation = none) ∧
    (processLoop resample0 quantId cfgDefault [none] = [] →
      (runV1 resample0 quantId cfgDefault [none] true).encodeOk = false) :=
  assembly_failure_behavior resample0 quantId cfgDefault [none]
    (Or.inl rfl) (Or.inl rfl) (List.cons_ne_nil _ _)

/-- C6 counterexample: in the inlined copy, a run over zero matching
sources is not fatal: the run proceeds, creates the destination file and
exits with status 0. -/
theorem v2_zero_sources_exit_zero :
    (runV2 resample0 quantId cfgDefault [] true).exitCode = 0 ∧
    (runV2 resample0 quantId cfgDefault [] true).destCreated = true := by
  decide

/-- C6 (amended): in the factored copy an invalid rotate value, an invalid
flip value or zero matching sources each terminate the run with exit
status 1 before any frame is processed and before any file is created; the
inlined copy checks only rotate and flip (zero matching sources proceeds to
a normal exit 0); with a valid configuration, per-frame failures never make
either run exit non-zero. -/
theorem config_validation_behavior :
    (∀ (resample : Resampler) (quantize : Image → Option Image) (cfg : Config)
        (sources : List (Option Image)) (createOk : Bool),
        (¬(cfg.rotate = 0 ∨ cfg.rotate = 90 ∨ cfg.rotate = 180 ∨ cfg.rotate = 270) ∨
            ¬(cfg.flip = "none" ∨ cfg.flip = "horizontal" ∨ cfg.flip = "vertical") ∨
            sources = []) →
        (runV1 resample quantize cfg sources createOk).exitCode = 1 ∧
        (runV1 resample quantize cfg sources createOk).destCreated = false ∧
        (runV1 resample quantize cfg sources createOk).animation = none) ∧
    (∀ (resample : Resampler) (quantize : Image → Option Image) (cfg : Config)
        (sources : List (Option Image)) (createOk : Bool),
        (¬(cfg.rotate = 0 ∨ cfg.rotate = 90 ∨ cfg.rotate = 180 ∨ cfg.rotate = 270) ∨
            ¬(cfg.flip = "none" ∨ cfg.flip = "horizontal" ∨ cfg.flip = "vertical")) →
        (runV2 resample quantize cfg sources createOk).exitCode = 1 ∧
        (runV2 resample quantize cfg sources createOk).destCreated = false ∧
        (runV2 resample quantize cfg sources createOk).animation = none) ∧
    (∀ (resample : Resampler) (quantize : Image → Option Image) (cfg : Config)
        (sources : List (Option Image)),
        (cfg.rotate = 0 ∨ cfg.rotate = 90 ∨ cfg.rotate = 180 ∨ cfg.rotate = 270) →
        (cfg.flip = "none" ∨ cfg.flip = "horizontal" ∨ cfg.flip = "vertical") →
        (runV2 resample quantize cfg sources true).exitCode = 0 ∧
        (sources ≠ [] → (runV1 resample quantize cfg sources true).exitCode = 0)) := by
  refine ⟨?_, ?_, ?_⟩
  · intro resample quantize cfg sources createOk hbad
    unfold runV1
    split
    · exact ⟨rfl, rfl, rfl⟩
    rename_i hr
    split
    · exact ⟨rfl, rfl, rfl⟩
    rename_i hf
    split
    · exact ⟨rfl, rfl, rfl⟩
    rename_i hlen
    rcases hbad with h | h | h
    · exact absurd h hr
    · exact absurd h hf
    · exact absurd (by simp [h]) hlen
  · intro resample quantize cfg sources createOk hbad
    unfold runV2
    split
    · exact ⟨rfl, rfl, rfl⟩
    rename_i hr
    split
    · exact ⟨rfl, rfl, rfl⟩
    rename_i hf
    rcases hbad with h | h
    · exact absurd h hr
    · exact absurd h hf
  · intro resample quantize cfg sources hrot hflip
    constructor
    · unfold runV2
      rw [if_neg (not_not_intro hrot), if_neg (not_not_intro hflip),
          if_neg (by decide)]
    · intro hne
      unfold runV1
      rw [if_neg (not_not_intro hrot), if_neg (not_not_intro hflip),
          if_neg (by simpa [List.length_eq_zero] using hne), if_neg (by decide)]

/-- Witness for config_validation_behavior: an invalid rotate flag is fatal
in the factored copy; a valid configuration with zero sources exits 0 in
the inlined copy. -/
theorem config_validation_behavior_witness :
    (runV1 resample0 quantId cfgBadRot [] true).exitCode = 1 ∧
    (runV2 resample0 quantId cfgDefault [] true).exitCode = 0 :=
  ⟨(config_validation_behavior.1 resample0 quantId cfgBadRot [] true
      (Or.inl (by decide))).1,
   (config_validation_behavior.2.2 resample0 quantId cfgDefault []
      (Or.inl rfl) (Or.inl rfl)).1⟩

/-- C7 counterexample: with a specified crop that leaves width and height
at the sentinel -1 (cropleft 1) and two decodable sources of different
sizes (10 by 10 then 20 by 20), the two copies of the program produce
different runs: the factored copy crops the second frame against its own
20 by 20 extent (19 by 19 result), while the inlined copy, having
overwritten the flags with the first frame's extent, crops it to 9 by 9. -/
theorem copies_diverge_at_sentinel_crop :
    runV1 resample0 quantId cfgC7 [some img10, some img20] true ≠
      runV2 resample0 quantId cfgC7 [some img10, some img20] true := by
  intro h
  have h2 := congrArg
    (fun r => ((r.animation.getD ⟨[], [], 0⟩).image.getD 1 imgEmpty).w) h
  exact absurd h2 (by decide)

/-- C7 (amended): the two copies are not behaviorally equivalent in
general (the inlined copy persists resolved sentinel crop dimensions
across frames and omits the zero-source check), but they do agree on every
run whose crop width and height are explicit (non-sentinel) and whose
source list is non-empty. -/
theorem copies_agree_without_sentinels (resample : Resampler)
    (quantize : Image → Option Image) (cfg : Config)
    (sources : List (Option Image)) (createOk : Bool)
    (hw : cfg.cropwidth ≠ -1) (hh : cfg.cropheight ≠ -1)
    (hne : sources ≠ []) :
    runV1 resample quantize cfg sources createOk =
      runV2 resample quantize cfg sources createOk := by
  have hlen : ¬(sources.length = 0) := by
    simpa [List.length_eq_zero] using hne
  have hloop := processLoopV2_no_sentinel resample quantize cfg hw hh sources
  have hmk : mkAnimationV2 resample quantize cfg sources =
      mkAnimation resample quantize cfg sources := by
    unfold mkAnimationV2 mkAnimation
    rw [hloop]
  unfold runV1 runV2
  by_cases h1 : ¬(cfg.rotate = 0 ∨ cfg.rotate = 90 ∨ cfg.rotate = 180 ∨ cfg.rotate = 270)
  · rw [if_pos h1, if_pos h1]
  rw [if_neg h1, if_neg h1]
  by_cases h2 : ¬(cfg.flip = "none" ∨ cfg.flip = "horizontal" ∨ cfg.flip = "vertical")
  · rw [if_pos h2, if_pos h2]
  rw [if_neg h2, if_neg h2, if_neg hlen]
  by_cases h3 : createOk = false
  · rw [if_pos h3, if_pos h3]
  rw [if_neg h3, if_neg h3, hmk]

/-- Witness for copies_agree_without_sentinels: an explicit 5 by 5 crop at
(1,0) over one decodable source. -/
theorem copies_agree_without_sentinels_witness :
    runV1 resample0 quantId cfgNoSentinel [some img10] true =
      runV2 resample0 quantId cfgNoSentinel [some img10] true :=
  copies_agree_without_sentinels resample0 quantId cfgNoSentinel [some img10] true
    (by decide) (by decide) (List.cons_ne_nil _ _)

/-- C8 counterexample: the configuration is not read-only in the inlined
copy: with cropleft 1 and sentinel width/height, after processing a 10 by
10 first frame the cropwidth flag cell holds 10, not the sentinel -1 the
claim says persists across iterations. -/
theorem cropwidth_mutated_after_first_frame :
    (processLoopV2 resample0 quantId cfgC7 (-1) (-1) [some img10, some img20]).2.1 = 10 ∧
    ¬((processLoopV2 resample0 quantId cfgC7 (-1) (-1) [some img10, some img20]).2.1 = -1) ∧
    (processLoopV2 resample0 quantId cfgC7 (-1) (-1) [some img10, some img20]).2.2 = 10 := by
  decide

/-- C8 (amended): the factored copy mutates no configuration state: its
loop passes the unchanged flag values to every iteration, so each frame is
transformed with the original configuration (and resolves sentinels against
its own extent); the inlined copy, by contrast, overwrites the sentinel
cropwidth/cropheight cells with the current frame's extent whenever a crop
is specified. -/
theorem config_mutation_behavior :
    (∀ (resample : Resampler) (quantize : Image → Option Image) (cfg : Config)
        (sources : List (Option Image)),
        processLoop resample quantize cfg sources =
          sources.filterMap (frameResult resample quantize cfg)) ∧
    (∀ (cl ct : Int) (img : Image), ¬(cl = 0 ∧ ct = 0) →
        (cropStepV2 cl ct (-1) (-1) img).2.1 = (img.w : Int) ∧
        (cropStepV2 cl ct (-1) (-1) img).2.2 = (img.h : Int)) := by
  constructor
  · exact fun r q cfg s => processLoop_eq_filterMap r q cfg s
  · intro cl ct img hguard
    unfold cropStepV2
    rw [if_pos (show ¬((-1:ℤ) = -1 ∧ (-1:ℤ) = -1 ∧ cl = 0 ∧ ct = 0) from
      fun hc => hguard ⟨hc.2.2.1, hc.2.2.2⟩)]
    simp

/-- Witness for config_mutation_behavior: the sentinel cells are
overwritten with the 10 by 10 frame's extent when cropleft is 1. -/
theorem config_mutation_behavior_witness :
    (cropStepV2 1 0 (-1) (-1) img10).2.1 = (img10.w : Int) ∧
    (cropStepV2 1 0 (-1) (-1) img10).2.2 = (img10.h : Int) :=
  config_mutation_behavior.2 1 0 img10 (by decide)

end GoAniGiffy
